import Mathlib

/-!
# gl_code.cpp: the rotating-cube frame loop

A shallow embedding of `app/src/main/cpp/gl_code.cpp`.

* Floating-point values (`GLfloat`, `float`) are exact rationals. The aspect
  ratio `width / height` is the rational quotient, which is 0 for a zero
  height, where the float quotient is an infinity or a NaN.
* The GL driver is outside the program: what it answers to a call is an input
  (`Driver`), a function of the arguments of the call, and every call the
  program makes is appended to a trace (`World.trace`).
* `glGetError` follows the GL ES 2.0 specification: the context records error
  flags, each `glGetError` returns one recorded flag and clears it, and it
  returns 0 (`GL_NO_ERROR`) when none is recorded (`World.pending`).
* `esUtil.h` is not among the sources: its matrix type is a type parameter and
  its helpers are the fields of `EsUtil`.
* `userData` points to the record allocated by `init`; the content of the
  allocated memory is an input of `init`.
-/

namespace GL2JNI

/-! ## GL types and the constants of `GLES2/gl2.h` used by the program -/

abbrev GLuint := Nat
abbrev GLint := Int
abbrev GLenum := Nat
abbrev GLfloat := ℚ

def GL_FALSE : GLint := 0
def GL_TRUE : GLint := 1
def GL_TRIANGLES : GLenum := 0x0004
def GL_DEPTH_BUFFER_BIT : GLenum := 0x0100
def GL_COLOR_BUFFER_BIT : GLenum := 0x4000
def GL_UNSIGNED_INT : GLenum := 0x1405
def GL_FLOAT : GLenum := 0x1406
def GL_VENDOR : GLenum := 0x1F00
def GL_RENDERER : GLenum := 0x1F01
def GL_VERSION : GLenum := 0x1F02
def GL_EXTENSIONS : GLenum := 0x1F03
def GL_FRAGMENT_SHADER : GLenum := 0x8B30
def GL_VERTEX_SHADER : GLenum := 0x8B31
def GL_COMPILE_STATUS : GLenum := 0x8B81
def GL_LINK_STATUS : GLenum := 0x8B82
def GL_INFO_LOG_LENGTH : GLenum := 0x8B84

/-! ## Calls, log lines and the trace -/

/-- The GPU calls the program issues, with their arguments. `glGetError` is
recorded separately (`Event.getError`), since it is only issued from
`checkGlError`. -/
inductive GLCall (M : Type) where
  | glGetString (s : GLenum)
  | glCreateShader (shaderType : GLenum)
  | glShaderSource (shader : GLuint) (source : String)
  | glCompileShader (shader : GLuint)
  | glGetShaderiv (shader : GLuint) (pname : GLenum)
  | glGetShaderInfoLog (shader : GLuint) (bufSize : GLint)
  | glDeleteShader (shader : GLuint)
  | glCreateProgram
  | glAttachShader (program shader : GLuint)
  | glLinkProgram (program : GLuint)
  | glGetProgramiv (program : GLuint) (pname : GLenum)
  | glGetProgramInfoLog (program : GLuint) (bufSize : GLint)
  | glDeleteProgram (program : GLuint)
  | glGetAttribLocation (program : GLuint) (name : String)
  | glGetUniformLocation (program : GLuint) (name : String)
  | glViewport (x y width height : Int)
  | glClearColor (r g b a : GLfloat)
  | glClear (mask : GLenum)
  | glUseProgram (program : GLuint)
  | glVertexAttribPointer (index : GLint) (size : Int) (type : GLenum)
      (normalized : GLint) (stride : Int) (pointer : List GLfloat)
  | glEnableVertexAttribArray (index : GLint)
  | glUniformMatrix4fv (location : GLint) (count : Int) (transpose : GLint) (value : M)
  | glDrawElements (mode : GLenum) (count : Int) (type : GLenum) (indices : List GLuint)
  deriving DecidableEq, Repr

/-- The name of the GL entry point of a call. -/
def GLCall.name {M : Type} : GLCall M → String
  | .glGetString _ => "glGetString"
  | .glCreateShader _ => "glCreateShader"
  | .glShaderSource _ _ => "glShaderSource"
  | .glCompileShader _ => "glCompileShader"
  | .glGetShaderiv _ _ => "glGetShaderiv"
  | .glGetShaderInfoLog _ _ => "glGetShaderInfoLog"
  | .glDeleteShader _ => "glDeleteShader"
  | .glCreateProgram => "glCreateProgram"
  | .glAttachShader _ _ => "glAttachShader"
  | .glLinkProgram _ => "glLinkProgram"
  | .glGetProgramiv _ _ => "glGetProgramiv"
  | .glGetProgramInfoLog _ _ => "glGetProgramInfoLog"
  | .glDeleteProgram _ => "glDeleteProgram"
  | .glGetAttribLocation _ _ => "glGetAttribLocation"
  | .glGetUniformLocation _ _ => "glGetUniformLocation"
  | .glViewport _ _ _ _ => "glViewport"
  | .glClearColor _ _ _ _ => "glClearColor"
  | .glClear _ => "glClear"
  | .glUseProgram _ => "glUseProgram"
  | .glVertexAttribPointer _ _ _ _ _ _ => "glVertexAttribPointer"
  | .glEnableVertexAttribArray _ => "glEnableVertexAttribArray"
  | .glUniformMatrix4fv _ _ _ _ => "glUniformMatrix4fv"
  | .glDrawElements _ _ _ _ => "glDrawElements"

/-- Severity of a log line: `LOGI` or `LOGE`. -/
inductive Severity where
  | info
  | error
  deriving DecidableEq, Repr

/-- An argument of a printf-style log line. -/
inductive LogArg where
  | str (s : String)
  | int (i : Int)
  deriving DecidableEq, Repr

/-- What the program does to the outside, in order. -/
inductive Event (M : Type) where
  /-- a GPU call other than `glGetError` -/
  | gl (c : GLCall M)
  /-- a `glGetError` call issued by `checkGlError(op)` -/
  | getError (op : String)
  /-- a line handed to `__android_log_print`: severity, format, arguments -/
  | log (sev : Severity) (fmt : String) (args : List LogArg)
  deriving DecidableEq, Repr

/-- The answers of the GL driver and of the allocator, as functions of the
arguments of the call. -/
structure Driver (M : Type) where
  glGetString : GLenum → String
  glCreateShader : GLenum → GLuint
  glGetShaderiv : GLuint → GLenum → GLint
  glGetShaderInfoLog : GLuint → GLint → String
  glCreateProgram : GLuint
  glGetProgramiv : GLuint → GLenum → GLint
  glGetProgramInfoLog : GLuint → GLint → String
  glGetAttribLocation : GLuint → String → GLint
  glGetUniformLocation : GLuint → String → GLint
  /-- the error flags a call records in the context -/
  raises : GLCall M → List GLenum
  /-- whether `malloc(size)` for a log buffer yields a non-null pointer -/
  malloc : GLint → Bool

/-- The outside world as the program sees it: the error flags recorded by the
context and not yet read by `glGetError`, and the trace so far. -/
structure World (M : Type) where
  pending : List GLenum
  trace : List (Event M)

variable {M : Type}

/-- Issue a GPU call: it is traced and its error flags are recorded. -/
def World.call (d : Driver M) (c : GLCall M) (w : World M) : World M :=
  { pending := w.pending ++ d.raises c, trace := w.trace ++ [Event.gl c] }

/-- Emit events that are not GPU calls. -/
def World.emit (es : List (Event M)) (w : World M) : World M :=
  { w with trace := w.trace ++ es }

def LOGI (fmt : String) (args : List LogArg) (w : World M) : World M :=
  w.emit [Event.log Severity.info fmt args]

def LOGE (fmt : String) (args : List LogArg) (w : World M) : World M :=
  w.emit [Event.log Severity.error fmt args]

/-! ## Error checking and the program builder -/

def printGLString (d : Driver M) (name : String) (s : GLenum) (w : World M) : World M :=
  let v := d.glGetString s
  let w := w.call d (.glGetString s)
  LOGI "GL %s = %s\n" [.str name, .str v] w

/-- The loop of `checkGlError`, by recursion on the recorded error flags:
each `glGetError` reads and clears the oldest flag (0 when none is recorded);
a non-zero result is logged under `op` and the loop goes on. Yields the flags
left and the events of the loop. -/
def checkGlErrorLoop (op : String) : List GLenum → List GLenum × List (Event M)
  | [] => ([], [Event.getError op])
  | error :: rest =>
    if error = 0 then (rest, [Event.getError op])
    else
      let r := checkGlErrorLoop op rest
      (r.1, Event.getError op ::
        Event.log Severity.info "after %s() glError (0x%x)\n" [.str op, .int error] :: r.2)

def checkGlError (op : String) (w : World M) : World M :=
  let r := checkGlErrorLoop op w.pending
  { pending := r.1, trace := w.trace ++ r.2 }

def gVertexShader : String :=
  "uniform mat4 u_mvpMatrix;                   \n" ++
  "attribute vec4 a_position;                  \n" ++
  "void main()                                 \n" ++
  "\x7b                                           \n" ++
  "   gl_Position = u_mvpMatrix * a_position;  \n" ++
  "\x7d                                           \n"

def gFragmentShader : String :=
  "precision mediump float;                            \n" ++
  "void main()                                         \n" ++
  "\x7b                                                   \n" ++
  "  gl_FragColor = vec4( 1.0, 0.0, 0.0, 1.0 );        \n" ++
  "\x7d                                                   \n"

def loadShader (d : Driver M) (shaderType : GLenum) (pSource : String) (w : World M) :
    GLuint × World M :=
  let shader := d.glCreateShader shaderType
  let w := w.call d (.glCreateShader shaderType)
  if shader ≠ 0 then
    let w := w.call d (.glShaderSource shader pSource)
    let w := w.call d (.glCompileShader shader)
    let compiled := d.glGetShaderiv shader GL_COMPILE_STATUS
    let w := w.call d (.glGetShaderiv shader GL_COMPILE_STATUS)
    if compiled = 0 then
      let infoLen := d.glGetShaderiv shader GL_INFO_LOG_LENGTH
      let w := w.call d (.glGetShaderiv shader GL_INFO_LOG_LENGTH)
      if infoLen ≠ 0 then
        let w :=
          if d.malloc infoLen then
            let buf := d.glGetShaderInfoLog shader infoLen
            let w := w.call d (.glGetShaderInfoLog shader infoLen)
            LOGE "Could not compile shader %d:\n%s\n" [.int shaderType, .str buf] w
          else w
        let w := w.call d (.glDeleteShader shader)
        (0, w)
      else (shader, w)
    else (shader, w)
  else (shader, w)

def createProgram (d : Driver M) (pVertexSource pFragmentSource : String) (w : World M) :
    GLuint × World M :=
  let rv := loadShader d GL_VERTEX_SHADER pVertexSource w
  let vertexShader := rv.1
  if vertexShader = 0 then (0, rv.2)
  else
    let rp := loadShader d GL_FRAGMENT_SHADER pFragmentSource rv.2
    let pixelShader := rp.1
    if pixelShader = 0 then (0, rp.2)
    else
      let program := d.glCreateProgram
      let w := rp.2.call d .glCreateProgram
      if program ≠ 0 then
        let w := w.call d (.glAttachShader program vertexShader)
        let w := checkGlError "glAttachShader" w
        let w := w.call d (.glAttachShader program pixelShader)
        let w := checkGlError "glAttachShader" w
        let w := w.call d (.glLinkProgram program)
        let linkStatus := d.glGetProgramiv program GL_LINK_STATUS
        let w := w.call d (.glGetProgramiv program GL_LINK_STATUS)
        if linkStatus ≠ GL_TRUE then
          let bufLength := d.glGetProgramiv program GL_INFO_LOG_LENGTH
          let w := w.call d (.glGetProgramiv program GL_INFO_LOG_LENGTH)
          let w :=
            if bufLength ≠ 0 then
              if d.malloc bufLength then
                let buf := d.glGetProgramInfoLog program bufLength
                let w := w.call d (.glGetProgramInfoLog program bufLength)
                LOGE "Could not link program:\n%s\n" [.str buf] w
              else w
            else w
          let w := w.call d (.glDeleteProgram program)
          (0, w)
        else (program, w)
      else (program, w)

/-! ## The state record and the frame loop -/

/-- Modelled from the spec: the helpers of `esUtil.h` the program calls. The
header and its implementation are not among the sources, so the helpers are
given functions. `esMatrixLoadIdentity` overwrites its argument with the
identity and is a constant; the others read the matrix they update.
`esGenCube scale` yields the index count, the vertex positions and the indices
(normals and texture coordinates are not requested). -/
structure EsUtil (M : Type) where
  esMatrixLoadIdentity : M
  esPerspective : M → GLfloat → GLfloat → GLfloat → GLfloat → M
  esTranslate : M → GLfloat → GLfloat → GLfloat → M
  esRotate : M → GLfloat → GLfloat → GLfloat → GLfloat → M
  esMatrixMultiply : M → M → M
  esGenCube : GLfloat → Int × List GLfloat × List GLuint

structure UserData (M : Type) where
  programObject : GLuint
  positionLoc : GLint
  mvpLoc : GLint
  vertices : List GLfloat
  indices : List GLuint
  numIndices : Int
  angle : GLfloat
  mvpMatrix : M

/-- The function `setupGraphics`, run on the record `userData` points to. -/
def setupGraphics (E : EsUtil M) (d : Driver M) (w h : Int) (userData : UserData M)
    (wd : World M) : Bool × UserData M × World M :=
  let wd := printGLString d "Version" GL_VERSION wd
  let wd := printGLString d "Vendor" GL_VENDOR wd
  let wd := printGLString d "Renderer" GL_RENDERER wd
  let wd := printGLString d "Extensions" GL_EXTENSIONS wd
  let wd := LOGI "setupGraphics(%d, %d)" [.int w, .int h] wd
  let r := createProgram d gVertexShader gFragmentShader wd
  let userData := { userData with programObject := r.1 }
  let wd := r.2
  if userData.programObject = 0 then
    let wd := LOGE "Could not create program." [] wd
    (false, userData, wd)
  else
    let userData :=
      { userData with positionLoc := d.glGetAttribLocation userData.programObject "a_position" }
    let wd := wd.call d (.glGetAttribLocation userData.programObject "a_position")
    let wd := checkGlError "glGetAttribLocation" wd
    let wd := LOGI "glGetAttribLocation(\"vPosition\") = %d\n" [.int userData.positionLoc] wd
    let userData :=
      { userData with mvpLoc := d.glGetUniformLocation userData.programObject "u_mvpMatrix" }
    let wd := wd.call d (.glGetUniformLocation userData.programObject "u_mvpMatrix")
    let cube := E.esGenCube 1
    let userData :=
      { userData with numIndices := cube.1, vertices := cube.2.1, indices := cube.2.2 }
    let userData := { userData with angle := 45 }
    let wd := wd.call d (.glViewport 0 0 w h)
    let wd := checkGlError "glViewport" wd
    (true, userData, wd)

def Update (E : EsUtil M) (deltaTime : GLfloat) (width height : Int) (userData : UserData M) :
    UserData M :=
  -- Compute a rotation angle based on time to rotate the cube
  let angle := userData.angle + deltaTime * 40
  let angle := if angle ≥ 360 then angle - 360 else angle
  -- Compute the window aspect ratio
  let aspect : GLfloat := (width : GLfloat) / (height : GLfloat)
  let perspective := E.esMatrixLoadIdentity
  let perspective := E.esPerspective perspective 100 aspect 1 30
  let modelview := E.esMatrixLoadIdentity
  let modelview := E.esTranslate modelview 0 0 (-5)
  let modelview := E.esRotate modelview angle 1 0 1
  { userData with angle := angle, mvpMatrix := E.esMatrixMultiply modelview perspective }

/-- The static local `grey` of `renderFrame`: zero-initialised, never assigned. -/
def grey : GLfloat := 0

def renderFrame (d : Driver M) (userData : UserData M) (w : World M) : World M :=
  let w := w.call d (.glClearColor grey grey grey 1)
  let w := checkGlError "glClearColor" w
  let w := w.call d (.glClear (GL_DEPTH_BUFFER_BIT ||| GL_COLOR_BUFFER_BIT))
  let w := checkGlError "glClear" w
  let w := w.call d (.glUseProgram userData.programObject)
  let w := checkGlError "glUseProgram" w
  let w := w.call d
    (.glVertexAttribPointer userData.positionLoc 3 GL_FLOAT GL_FALSE (3 * 4) userData.vertices)
  let w := checkGlError "glVertexAttribPointer" w
  let w := w.call d (.glEnableVertexAttribArray userData.positionLoc)
  let w := checkGlError "glEnableVertexAttribArray" w
  let w := w.call d (.glUniformMatrix4fv userData.mvpLoc 1 GL_FALSE userData.mvpMatrix)
  let w := w.call d
    (.glDrawElements GL_TRIANGLES userData.numIndices GL_UNSIGNED_INT userData.indices)
  checkGlError "glDrawElements" w

/-- The globals of the program once `init` has run: the record `userData`
points to, and `ww`, `hh`. -/
structure Globals (M : Type) where
  userData : UserData M
  ww : Int
  hh : Int

/-- The entry point `init`. `fresh` is the record `malloc` returns: its fields
hold whatever the memory held. The result of `setupGraphics` is dropped. -/
def Java_com_android_gl2jni_GL2JNILib_init (E : EsUtil M) (d : Driver M) (fresh : UserData M)
    (width height : Int) (w : World M) : Globals M × World M :=
  let r := setupGraphics E d width height fresh w
  ({ userData := r.2.1, ww := width, hh := height }, r.2.2)

/-- The entry point `step`. -/
def Java_com_android_gl2jni_GL2JNILib_step (E : EsUtil M) (d : Driver M)
    (s : Globals M × World M) : Globals M × World M :=
  let w := renderFrame d s.1.userData s.2
  let userData := Update E (1 / 1000) s.1.ww s.1.hh s.1.userData
  ({ s.1 with userData := userData }, w)

/-! ## Runs of the program -/

/-- Consecutive `Update` calls, one per `deltaTime` of the list, with the same
`width` and `height`. -/
def updates (E : EsUtil M) (width height : Int) : List GLfloat → UserData M → UserData M
  | [], userData => userData
  | deltaTime :: rest, userData =>
    updates E width height rest (Update E deltaTime width height userData)

/-- The program state after `n` calls of `step`. -/
def steps (E : EsUtil M) (d : Driver M) : Nat → Globals M × World M → Globals M × World M
  | 0, s => s
  | n + 1, s => steps E d n (Java_com_android_gl2jni_GL2JNILib_step E d s)

/-- The MVP matrix in the words of the specification: model-view multiplied by
perspective, the model-view being identity, translated by (0, 0, -5), rotated
by `angle` about (1, 0, 1), and the perspective having the given field of view
and aspect, near 1 and far 30. -/
def mvpSpec (E : EsUtil M) (fov angle aspect : GLfloat) : M :=
  E.esMatrixMultiply
    (E.esRotate (E.esTranslate E.esMatrixLoadIdentity 0 0 (-5)) angle 1 0 1)
    (E.esPerspective E.esMatrixLoadIdentity fov aspect 1 30)

/-- Two program states agree on everything but the rotation angle and the MVP
matrix. -/
def sameFrame (a b : Globals M) : Prop :=
  a.userData.programObject = b.userData.programObject ∧
  a.userData.positionLoc = b.userData.positionLoc ∧
  a.userData.mvpLoc = b.userData.mvpLoc ∧
  a.userData.vertices = b.userData.vertices ∧
  a.userData.indices = b.userData.indices ∧
  a.userData.numIndices = b.userData.numIndices ∧
  a.ww = b.ww ∧ a.hh = b.hh

/-- The GPU calls of a trace, in order (the `glGetError` calls of
`checkGlError` and the log lines left out). -/
def glCalls (t : List (Event M)) : List (GLCall M) :=
  t.filterMap fun e => match e with
    | Event.gl c => some c
    | _ => none

/-- The arguments of the `glViewport` calls among some GPU calls. -/
def viewports (cs : List (GLCall M)) : List (Int × Int × Int × Int) :=
  cs.filterMap fun c => match c with
    | .glViewport x y width height => some (x, y, width, height)
    | _ => none

/-- Every GPU call named `name` in the trace is immediately followed by the
first `glGetError` of `checkGlError(name)`. -/
def checkedAfter (name : String) : List (Event M) → Prop
  | [] => True
  | Event.gl c :: rest =>
    (c.name = name → rest.head? = some (Event.getError name)) ∧ checkedAfter name rest
  | _ :: rest => checkedAfter name rest

/-- A GPU call of the trace that is immediately followed by a `glGetError` is
named in `names`: the calls named otherwise are not followed by an error
check. -/
def onlyChecked (names : List String) : List (Event M) → Prop
  | [] => True
  | Event.gl c :: rest =>
    (∀ op, rest.head? = some (Event.getError op) → c.name ∈ names) ∧ onlyChecked names rest
  | _ :: rest => onlyChecked names rest

/-- The matrices handed to `glUniformMatrix4fv` among some GPU calls. -/
def uploads (cs : List (GLCall M)) : List M :=
  cs.filterMap fun c => match c with
    | .glUniformMatrix4fv _ _ _ value => some value
    | _ => none

/-- Events that can be inserted in front of any trace without changing
whether the calls named `name` are checked. -/
def Transparent (name : String) (es : List (Event M)) : Prop :=
  ∀ rest, checkedAfter name (es ++ rest) ↔ checkedAfter name rest

/-- The world `w2` is `w1` after further events that are transparent for
`name`. -/
def Extends (name : String) (w1 w2 : World M) : Prop :=
  ∃ es, w2.trace = w1.trace ++ es ∧ Transparent name es

/-- The line `checkGlError(op)` logs for a non-zero `error`. -/
def errorLog (op : String) (error : GLenum) : Event M :=
  Event.log Severity.info "after %s() glError (0x%x)\n" [.str op, .int error]

/-- The log lines of a trace, in order. -/
def logLines (t : List (Event M)) : List (Event M) :=
  t.filter fun e => match e with
    | Event.log _ _ _ => true
    | _ => false

/-- The world in which `setupGraphics` calls `createProgram`: the four
`printGLString` calls and the `LOGI` line have run. -/
def beforeCreateProgram (d : Driver M) (w h : Int) (wd : World M) : World M :=
  LOGI "setupGraphics(%d, %d)" [.int w, .int h]
    (printGLString d "Extensions" GL_EXTENSIONS
      (printGLString d "Renderer" GL_RENDERER
        (printGLString d "Vendor" GL_VENDOR (printGLString d "Version" GL_VERSION wd))))

/-! ## Concrete inputs

`esUtil` being absent, concrete runs use helpers that keep a matrix as the
expression that built it. -/

/-- A matrix as the sequence of helper calls that produced it. -/
inductive MatTerm where
  /-- the content of memory no helper has written -/
  | unassigned
  | identity
  | perspective (m : MatTerm) (fovy aspect nearZ farZ : GLfloat)
  | translate (m : MatTerm) (tx ty tz : GLfloat)
  | rotate (m : MatTerm) (angle x y z : GLfloat)
  | multiply (a b : MatTerm)
  deriving DecidableEq, Repr

/-- The field-of-view arguments of the `esPerspective` calls behind a matrix. -/
def MatTerm.fovs : MatTerm → List GLfloat
  | .unassigned => []
  | .identity => []
  | .perspective m fovy _ _ _ => m.fovs ++ [fovy]
  | .translate m _ _ _ => m.fovs
  | .rotate m _ _ _ _ => m.fovs
  | .multiply a b => a.fovs ++ b.fovs

/-- Helpers that record their calls. The mesh is a stand-in for the cube: one
triangle. -/
def recordingEsUtil : EsUtil MatTerm where
  esMatrixLoadIdentity := MatTerm.identity
  esPerspective := MatTerm.perspective
  esTranslate := MatTerm.translate
  esRotate := MatTerm.rotate
  esMatrixMultiply := MatTerm.multiply
  esGenCube := fun scale => (3, [0, 0, 0, scale, 0, 0, 0, scale, 0], [0, 1, 2])

/-- A driver for which everything succeeds and no call raises an error. -/
def okDriver : Driver MatTerm where
  glGetString := fun _ => "OpenGL ES 2.0"
  glCreateShader := fun shaderType => if shaderType = GL_VERTEX_SHADER then 1 else 2
  glGetShaderiv := fun _ pname => if pname = GL_COMPILE_STATUS then 1 else 0
  glGetShaderInfoLog := fun _ _ => ""
  glCreateProgram := 3
  glGetProgramiv := fun _ pname => if pname = GL_LINK_STATUS then 1 else 0
  glGetProgramInfoLog := fun _ _ => ""
  glGetAttribLocation := fun _ _ => 0
  glGetUniformLocation := fun _ _ => 0
  raises := fun _ => []
  malloc := fun _ => true

/-- A driver for which both shaders fail to compile and report an empty info
log, and the link then fails as well. -/
def silentCompileFailureDriver : Driver MatTerm :=
  { okDriver with
    glGetShaderiv := fun _ _ => 0
    glGetProgramiv := fun _ _ => 0 }

/-- A driver for which both shaders compile and the link fails, with an empty
info log. -/
def linkFailureDriver : Driver MatTerm :=
  { okDriver with glGetProgramiv := fun _ _ => 0 }

/-- A driver for which everything succeeds and glUniformMatrix4fv records
GL_INVALID_OPERATION (0x0502). -/
def uniformErrorDriver : Driver MatTerm :=
  { okDriver with
    raises := fun c => match c with
      | .glUniformMatrix4fv _ _ _ _ => [0x0502]
      | _ => [] }

/-- Memory as `malloc` may return it: nothing in it is meaningful. -/
def freshUserData : UserData MatTerm where
  programObject := 77
  positionLoc := -7
  mvpLoc := -9
  vertices := []
  indices := []
  numIndices := -1
  angle := 1000
  mvpMatrix := MatTerm.unassigned

/-- The world before the program has done anything. -/
def World.start : World M := { pending := [], trace := [] }

/-! ## The rotation angle -/

theorem Update_angle (E : EsUtil M) (deltaTime : GLfloat) (width height : Int)
    (userData : UserData M) :
    (Update E deltaTime width height userData).angle =
      if userData.angle + deltaTime * 40 ≥ 360 then userData.angle + deltaTime * 40 - 360
      else userData.angle + deltaTime * 40 := rfl

theorem Update_angle_range (E : EsUtil M) (deltaTime : GLfloat) (width height : Int)
    (userData : UserData M) (h0 : 0 ≤ userData.angle) (h1 : userData.angle < 360)
    (hd0 : 0 ≤ deltaTime) (hd1 : deltaTime * 40 ≤ 360) :
    0 ≤ (Update E deltaTime width height userData).angle ∧
      (Update E deltaTime width height userData).angle < 360 := by
  rw [Update_angle]
  split_ifs with h
  · constructor <;> linarith
  · constructor
    · nlinarith
    · linarith

theorem updates_angle_range (E : EsUtil M) (width height : Int) (deltaTimes : List GLfloat) :
    ∀ userData : UserData M, 0 ≤ userData.angle → userData.angle < 360 →
      (∀ deltaTime ∈ deltaTimes, 0 < deltaTime ∧ deltaTime * 40 ≤ 360) →
      0 ≤ (updates E width height deltaTimes userData).angle ∧
        (updates E width height deltaTimes userData).angle < 360 := by
  induction deltaTimes with
  | nil => intro userData h0 h1 _; exact ⟨h0, h1⟩
  | cons deltaTime rest ih =>
    intro userData h0 h1 hd
    have hstep := Update_angle_range E deltaTime width height userData h0 h1
      (le_of_lt (hd deltaTime (List.mem_cons_self _ _)).1) (hd deltaTime (List.mem_cons_self _ _)).2
    exact ih _ hstep.1 hstep.2 (fun x hx => hd x (List.mem_cons_of_mem _ hx))

/-- C1, as stated, fails: from angle 0, one `Update` with the positive
`deltaTime` 20 stores the angle 440, outside [0, 360). -/
theorem c1_counterexample :
    (0 : GLfloat) ≤ ({ freshUserData with angle := 0 } : UserData MatTerm).angle ∧
    ({ freshUserData with angle := 0 } : UserData MatTerm).angle < 360 ∧
    (0 : GLfloat) < 20 ∧
    (Update recordingEsUtil 20 480 800 { freshUserData with angle := 0 }).angle = 440 ∧
    ¬ (Update recordingEsUtil 20 480 800 { freshUserData with angle := 0 }).angle < 360 := by
  rw [Update_angle]
  norm_num

/-- C1, amended: for every starting angle in [0, 360) and every finite sequence
of `deltaTime` values that are positive and at most 9 (so that one step adds at
most 360 degrees), the angle stored after each `Update` call of the sequence,
that is after every initial segment of it, lies in [0, 360). -/
theorem c1_angle_in_range (E : EsUtil M) (width height : Int) (userData : UserData M)
    (deltaTimes : List GLfloat) (h0 : 0 ≤ userData.angle) (h1 : userData.angle < 360)
    (hd : ∀ deltaTime ∈ deltaTimes, 0 < deltaTime ∧ deltaTime ≤ 9) (k : Nat) :
    0 ≤ (updates E width height (deltaTimes.take k) userData).angle ∧
      (updates E width height (deltaTimes.take k) userData).angle < 360 := by
  apply updates_angle_range E width height _ userData h0 h1
  intro deltaTime hmem
  have h := hd deltaTime (List.mem_of_mem_take hmem)
  exact ⟨h.1, by linarith [h.2]⟩

/-- C1, amended, at a concrete input: from angle 350, after the first two of
the steps 9, 0.5, 9. -/
theorem c1_angle_in_range_witness :
    (0 : GLfloat) ≤ ({ freshUserData with angle := 350 } : UserData MatTerm).angle ∧
    ({ freshUserData with angle := 350 } : UserData MatTerm).angle < 360 ∧
    (∀ deltaTime ∈ ([9, 1 / 2, 9] : List GLfloat), 0 < deltaTime ∧ deltaTime ≤ 9) ∧
    0 ≤ (updates recordingEsUtil 480 800 (([9, 1 / 2, 9] : List GLfloat).take 2)
      { freshUserData with angle := 350 }).angle ∧
    (updates recordingEsUtil 480 800 (([9, 1 / 2, 9] : List GLfloat).take 2)
      { freshUserData with angle := 350 }).angle < 360 :=
  have h0 : (0 : GLfloat) ≤ ({ freshUserData with angle := 350 } : UserData MatTerm).angle := by
    norm_num
  have h1 : ({ freshUserData with angle := 350 } : UserData MatTerm).angle < 360 := by
    norm_num
  have hd : ∀ deltaTime ∈ ([9, 1 / 2, 9] : List GLfloat), 0 < deltaTime ∧ deltaTime ≤ 9 := by
    intro deltaTime hmem
    simp only [List.mem_cons, List.mem_singleton, List.not_mem_nil, or_false] at hmem
    rcases hmem with rfl | rfl | rfl <;> norm_num
  ⟨h0, h1, hd, c1_angle_in_range recordingEsUtil 480 800 _ _ h0 h1 hd 2⟩

theorem setupGraphics_angle (E : EsUtil M) (d : Driver M) (w h : Int) (userData : UserData M)
    (wd : World M) (hok : (setupGraphics E d w h userData wd).1 = true) :
    (setupGraphics E d w h userData wd).2.1.angle = 45 := by
  unfold setupGraphics at hok ⊢
  dsimp only at hok ⊢
  split_ifs at hok ⊢ with h0
  rfl

theorem updates_replicate_angle (E : EsUtil M) (width height : Int) (deltaTime : GLfloat)
    (hd0 : 0 < 40 * deltaTime) (hd1 : 40 * deltaTime < 360) (n : Nat) :
    ∀ userData : UserData M, 0 ≤ userData.angle → userData.angle < 360 →
      0 ≤ (updates E width height (List.replicate n deltaTime) userData).angle ∧
      (updates E width height (List.replicate n deltaTime) userData).angle < 360 ∧
      ∃ k : ℤ, (updates E width height (List.replicate n deltaTime) userData).angle =
        userData.angle + 40 * n * deltaTime - 360 * k := by
  induction n with
  | zero =>
    intro userData h0 h1
    exact ⟨h0, h1, 0, by simp [updates]⟩
  | succ n ih =>
    intro userData h0 h1
    have hr := Update_angle_range E deltaTime width height userData h0 h1
      (by linarith) (by linarith)
    obtain ⟨a0, a1, k, hk⟩ := ih (Update E deltaTime width height userData) hr.1 hr.2
    refine ⟨a0, a1, ?_⟩
    simp only [List.replicate_succ, updates] at a0 a1 hk ⊢
    rw [hk, Update_angle]
    split_ifs with hw
    · exact ⟨k + 1, by push_cast; ring⟩
    · exact ⟨k, by push_cast; ring⟩

/-- C6: after a successful `init` (which sets the angle to 45), `n` consecutive
`Update` calls with the same `deltaTime`, where 0 < 40 * deltaTime < 360, leave
the angle at the unique value of [0, 360) congruent to 45 + 40 * n * deltaTime
modulo 360, that is 45 + 40 * n * deltaTime minus 360 times the integer part of
its quotient by 360. -/
theorem c6_angle_after_updates (E : EsUtil M) (d : Driver M) (fresh : UserData M)
    (width height : Int) (w : World M) (deltaTime : GLfloat) (n : Nat)
    (hok : (setupGraphics E d width height fresh w).1 = true)
    (hd0 : 0 < 40 * deltaTime) (hd1 : 40 * deltaTime < 360) :
    0 ≤ (updates E width height (List.replicate n deltaTime)
      (Java_com_android_gl2jni_GL2JNILib_init E d fresh width height w).1.userData).angle ∧
    (updates E width height (List.replicate n deltaTime)
      (Java_com_android_gl2jni_GL2JNILib_init E d fresh width height w).1.userData).angle < 360 ∧
    (updates E width height (List.replicate n deltaTime)
      (Java_com_android_gl2jni_GL2JNILib_init E d fresh width height w).1.userData).angle =
      45 + 40 * n * deltaTime - 360 * (⌊(45 + 40 * n * deltaTime) / 360⌋ : ℤ) := by
  have h45 : (Java_com_android_gl2jni_GL2JNILib_init E d fresh width height w).1.userData.angle
      = 45 := setupGraphics_angle E d width height fresh w hok
  obtain ⟨a0, a1, k, hk⟩ := updates_replicate_angle E width height deltaTime hd0 hd1 n
    (Java_com_android_gl2jni_GL2JNILib_init E d fresh width height w).1.userData
    (by rw [h45]; norm_num) (by rw [h45]; norm_num)
  refine ⟨a0, a1, ?_⟩
  rw [h45] at hk
  have hfloor : ⌊(45 + 40 * (n : ℚ) * deltaTime) / 360⌋ = k := by
    rw [Int.floor_eq_iff]
    rw [hk] at a0 a1
    constructor
    · rw [le_div_iff₀ (by norm_num)]; linarith
    · rw [div_lt_iff₀ (by norm_num)]; linarith
  rw [hfloor, hk]

/-- C6 at n = 10 and deltaTime = 0.016 after init(480, 800): the angle is
51.4. -/
theorem c6_angle_after_updates_witness :
    (setupGraphics recordingEsUtil okDriver 480 800 freshUserData World.start).1 = true ∧
    (0 : GLfloat) < 40 * (2 / 125) ∧ (40 : GLfloat) * (2 / 125) < 360 ∧
    (updates recordingEsUtil 480 800 (List.replicate 10 (2 / 125))
      (Java_com_android_gl2jni_GL2JNILib_init recordingEsUtil okDriver freshUserData 480 800
        World.start).1.userData).angle = 257 / 5 := by
  have hok : (setupGraphics recordingEsUtil okDriver 480 800 freshUserData World.start).1 = true :=
    by decide
  have hd0 : (0 : GLfloat) < 40 * (2 / 125) := by norm_num
  have hd1 : (40 : GLfloat) * (2 / 125) < 360 := by norm_num
  have h := (c6_angle_after_updates recordingEsUtil okDriver freshUserData 480 800 World.start
    (2 / 125) 10 hok hd0 hd1).2.2
  have hfloor : ⌊((45 : ℚ) + 40 * ((10 : ℕ) : ℚ) * (2 / 125)) / 360⌋ = 0 := by
    rw [Int.floor_eq_iff]
    norm_num
  rw [hfloor] at h
  refine ⟨hok, hd0, hd1, ?_⟩
  rw [h]
  norm_num

/-! ## The MVP matrix and the frame of a step -/

theorem Update_mvpMatrix (E : EsUtil M) (deltaTime : GLfloat) (width height : Int)
    (userData : UserData M) :
    (Update E deltaTime width height userData).mvpMatrix =
      mvpSpec E 100 (Update E deltaTime width height userData).angle
        ((width : GLfloat) / (height : GLfloat)) := rfl

theorem steps_succ (E : EsUtil M) (d : Driver M) (n : Nat) (s : Globals M × World M) :
    steps E d (n + 1) s = Java_com_android_gl2jni_GL2JNILib_step E d (steps E d n s) := by
  induction n generalizing s with
  | zero => rfl
  | succ n ih => exact ih (Java_com_android_gl2jni_GL2JNILib_step E d s)

theorem steps_sameFrame (E : EsUtil M) (d : Driver M) (n : Nat) :
    ∀ s : Globals M × World M, sameFrame (steps E d n s).1 s.1 := by
  induction n with
  | zero => intro s; exact ⟨rfl, rfl, rfl, rfl, rfl, rfl, rfl, rfl⟩
  | succ n ih =>
    intro s
    exact ih (Java_com_android_gl2jni_GL2JNILib_step E d s)

/-- C9: the matrix `Update` stores is multiply(modelview, perspective) in that
argument order, with modelview = rotate(translate(identity, 0, 0, -5), angle',
1, 0, 1) for the advanced and wrapped angle angle' and perspective =
perspective(identity, fov, width / height, 1, 30); in a step after
init(width, height) the width and height are those given to init; and the
matrix is a function of (angle', width / height) alone. -/
theorem c9_mvp_matrix (E : EsUtil M) (d : Driver M) (userData : UserData M)
    (deltaTime : GLfloat) (width height : Int) :
    (Update E deltaTime width height userData).mvpMatrix =
      E.esMatrixMultiply
        (E.esRotate (E.esTranslate E.esMatrixLoadIdentity 0 0 (-5))
          (Update E deltaTime width height userData).angle 1 0 1)
        (E.esPerspective E.esMatrixLoadIdentity 100 ((width : GLfloat) / (height : GLfloat))
          1 30) ∧
    (Update E deltaTime width height userData).angle =
      (if userData.angle + deltaTime * 40 ≥ 360 then userData.angle + deltaTime * 40 - 360
       else userData.angle + deltaTime * 40) ∧
    (∀ (fresh : UserData M) (w : World M) (n : Nat),
      (steps E d (n + 1)
        (Java_com_android_gl2jni_GL2JNILib_init E d fresh width height w)).1.userData.mvpMatrix =
      mvpSpec E 100
        (steps E d (n + 1)
          (Java_com_android_gl2jni_GL2JNILib_init E d fresh width height w)).1.userData.angle
        ((width : GLfloat) / (height : GLfloat))) ∧
    (∀ (userData₂ : UserData M) (deltaTime₂ : GLfloat) (width₂ height₂ : Int),
      (Update E deltaTime width height userData).angle =
        (Update E deltaTime₂ width₂ height₂ userData₂).angle →
      (width : GLfloat) / (height : GLfloat) = (width₂ : GLfloat) / (height₂ : GLfloat) →
      (Update E deltaTime width height userData).mvpMatrix =
        (Update E deltaTime₂ width₂ height₂ userData₂).mvpMatrix) := by
  refine ⟨rfl, rfl, ?_, ?_⟩
  · intro fresh w n
    rw [steps_succ]
    have hf := steps_sameFrame E d n (Java_com_android_gl2jni_GL2JNILib_init E d fresh width height w)
    have hw : (steps E d n
        (Java_com_android_gl2jni_GL2JNILib_init E d fresh width height w)).1.ww = width := hf.2.2.2.2.2.2.1
    have hh : (steps E d n
        (Java_com_android_gl2jni_GL2JNILib_init E d fresh width height w)).1.hh = height := hf.2.2.2.2.2.2.2
    show mvpSpec E 100 _ (_ / _) = mvpSpec E 100 _ _
    rw [hw, hh]
    rfl
  · intro userData₂ deltaTime₂ width₂ height₂ ha hasp
    rw [Update_mvpMatrix, Update_mvpMatrix, ha, hasp]

/-- C10, evaluated on the code: in the first step after init(480, 800) the
field of view handed to `esPerspective` is 100, not 60. -/
theorem c10_fov_passed :
    (Update recordingEsUtil (1 / 1000) 480 800
      (Java_com_android_gl2jni_GL2JNILib_init recordingEsUtil okDriver freshUserData 480 800
        World.start).1.userData).mvpMatrix.fovs = [100] ∧
    (Java_com_android_gl2jni_GL2JNILib_step recordingEsUtil okDriver
      (Java_com_android_gl2jni_GL2JNILib_init recordingEsUtil okDriver freshUserData 480 800
        World.start)).1.userData.mvpMatrix.fovs = [100] ∧
    ([100] : List GLfloat) ≠ [60] := by
  refine ⟨rfl, rfl, ?_⟩
  norm_num

/-- C7: a step changes no field other than the rotation angle and the MVP
matrix: after any number of steps the program handle, the two locations, the
vertex and index buffers, the index count and the stored width and height are
those left by init, and one step from any state keeps them. -/
theorem c7_step_frame (E : EsUtil M) (d : Driver M) (fresh : UserData M) (width height : Int)
    (w : World M) (n : Nat) (s : Globals M × World M) :
    sameFrame (steps E d n (Java_com_android_gl2jni_GL2JNILib_init E d fresh width height w)).1
      (Java_com_android_gl2jni_GL2JNILib_init E d fresh width height w).1 ∧
    (steps E d n (Java_com_android_gl2jni_GL2JNILib_init E d fresh width height w)).1.ww = width ∧
    (steps E d n (Java_com_android_gl2jni_GL2JNILib_init E d fresh width height w)).1.hh = height ∧
    sameFrame (Java_com_android_gl2jni_GL2JNILib_step E d s).1 s.1 := by
  have hf := steps_sameFrame E d n (Java_com_android_gl2jni_GL2JNILib_init E d fresh width height w)
  exact ⟨hf, hf.2.2.2.2.2.2.1, hf.2.2.2.2.2.2.2, ⟨rfl, rfl, rfl, rfl, rfl, rfl, rfl, rfl⟩⟩

/-! ## Traces -/

@[simp] theorem call_trace (d : Driver M) (c : GLCall M) (w : World M) :
    (w.call d c).trace = w.trace ++ [Event.gl c] := rfl

@[simp] theorem call_pending (d : Driver M) (c : GLCall M) (w : World M) :
    (w.call d c).pending = w.pending ++ d.raises c := rfl

@[simp] theorem LOGI_trace (fmt : String) (args : List LogArg) (w : World M) :
    (LOGI fmt args w).trace = w.trace ++ [Event.log Severity.info fmt args] := rfl

@[simp] theorem LOGI_pending (fmt : String) (args : List LogArg) (w : World M) :
    (LOGI fmt args w).pending = w.pending := rfl

@[simp] theorem LOGE_trace (fmt : String) (args : List LogArg) (w : World M) :
    (LOGE fmt args w).trace = w.trace ++ [Event.log Severity.error fmt args] := rfl

@[simp] theorem LOGE_pending (fmt : String) (args : List LogArg) (w : World M) :
    (LOGE fmt args w).pending = w.pending := rfl

@[simp] theorem checkGlError_trace (op : String) (w : World M) :
    (checkGlError op w).trace = w.trace ++ (checkGlErrorLoop op w.pending).2 := rfl

@[simp] theorem checkGlError_pending (op : String) (w : World M) :
    (checkGlError op w).pending = (checkGlErrorLoop (M := M) op w.pending).1 := rfl

@[simp] theorem printGLString_trace (d : Driver M) (name : String) (s : GLenum) (w : World M) :
    (printGLString d name s w).trace = w.trace ++ [Event.gl (.glGetString s),
      Event.log Severity.info "GL %s = %s\n" [.str name, .str (d.glGetString s)]] := by
  simp [printGLString]

@[simp] theorem glCalls_nil : glCalls ([] : List (Event M)) = [] := rfl

@[simp] theorem glCalls_append (a b : List (Event M)) :
    glCalls (a ++ b) = glCalls a ++ glCalls b := by
  simp [glCalls]

@[simp] theorem glCalls_gl (c : GLCall M) (t : List (Event M)) :
    glCalls (Event.gl c :: t) = c :: glCalls t := by
  simp [glCalls]

@[simp] theorem glCalls_log (sev : Severity) (fmt : String) (args : List LogArg)
    (t : List (Event M)) : glCalls (Event.log sev fmt args :: t) = glCalls t := by
  simp [glCalls]

@[simp] theorem glCalls_getError (op : String) (t : List (Event M)) :
    glCalls (Event.getError op :: t) = glCalls t := by
  simp [glCalls]

@[simp] theorem glCalls_checkGlErrorLoop (op : String) (flags : List GLenum) :
    glCalls (checkGlErrorLoop (M := M) op flags).2 = [] := by
  induction flags with
  | nil => simp [checkGlErrorLoop]
  | cons error rest ih =>
    unfold checkGlErrorLoop
    split_ifs <;> simp [ih]

theorem viewports_append (a b : List (GLCall M)) :
    viewports (a ++ b) = viewports a ++ viewports b := by
  simp [viewports]

theorem loadShader_viewports (d : Driver M) (shaderType : GLenum) (pSource : String)
    (w : World M) :
    viewports (glCalls (loadShader d shaderType pSource w).2.trace) =
      viewports (glCalls w.trace) := by
  unfold loadShader
  dsimp only
  split_ifs <;> simp [viewports]

theorem createProgram_viewports (d : Driver M) (pVertexSource pFragmentSource : String)
    (w : World M) :
    viewports (glCalls (createProgram d pVertexSource pFragmentSource w).2.trace) =
      viewports (glCalls w.trace) := by
  unfold createProgram
  dsimp only
  split_ifs <;> simp [viewports_append, loadShader_viewports] <;> simp [viewports]

theorem beforeCreateProgram_viewports (d : Driver M) (w h : Int) (wd : World M) :
    viewports (glCalls (beforeCreateProgram d w h wd).trace) = viewports (glCalls wd.trace) := by
  simp [beforeCreateProgram, viewports_append]
  simp [viewports]

/-- C8: init stores the handle `createProgram` returns. When it is non-zero,
init sets the angle to 45, stores the two locations the driver resolves and the
mesh of `esGenCube`, and its GPU calls after the program build are
glGetAttribLocation, glGetUniformLocation and glViewport(0, 0, width, height),
the only viewport call. When it is zero, init logs the error "Could not create
program." as its last event, leaves every other field of the record as
allocated and makes no viewport call. The outcome of `setupGraphics` is not
part of what init yields. -/
theorem c8_init (E : EsUtil M) (d : Driver M) (fresh : UserData M) (width height : Int)
    (pending : List GLenum) :
    (Java_com_android_gl2jni_GL2JNILib_init E d fresh width height
      { pending := pending, trace := [] }).1.userData.programObject =
      (createProgram d gVertexShader gFragmentShader
        (beforeCreateProgram d width height { pending := pending, trace := [] })).1 ∧
    if (createProgram d gVertexShader gFragmentShader
        (beforeCreateProgram d width height { pending := pending, trace := [] })).1 ≠ 0 then
      (Java_com_android_gl2jni_GL2JNILib_init E d fresh width height
        { pending := pending, trace := [] }).1.userData =
        { programObject := (createProgram d gVertexShader gFragmentShader
            (beforeCreateProgram d width height { pending := pending, trace := [] })).1
          positionLoc := d.glGetAttribLocation (createProgram d gVertexShader gFragmentShader
            (beforeCreateProgram d width height { pending := pending, trace := [] })).1
            "a_position"
          mvpLoc := d.glGetUniformLocation (createProgram d gVertexShader gFragmentShader
            (beforeCreateProgram d width height { pending := pending, trace := [] })).1
            "u_mvpMatrix"
          vertices := (E.esGenCube 1).2.1
          indices := (E.esGenCube 1).2.2
          numIndices := (E.esGenCube 1).1
          angle := 45
          mvpMatrix := fresh.mvpMatrix } ∧
      glCalls (Java_com_android_gl2jni_GL2JNILib_init E d fresh width height
        { pending := pending, trace := [] }).2.trace =
        glCalls (createProgram d gVertexShader gFragmentShader
          (beforeCreateProgram d width height { pending := pending, trace := [] })).2.trace ++
        [.glGetAttribLocation (createProgram d gVertexShader gFragmentShader
            (beforeCreateProgram d width height { pending := pending, trace := [] })).1
            "a_position",
         .glGetUniformLocation (createProgram d gVertexShader gFragmentShader
            (beforeCreateProgram d width height { pending := pending, trace := [] })).1
            "u_mvpMatrix",
         .glViewport 0 0 width height] ∧
      viewports (glCalls (Java_com_android_gl2jni_GL2JNILib_init E d fresh width height
        { pending := pending, trace := [] }).2.trace) = [(0, 0, width, height)]
    else
      (Java_com_android_gl2jni_GL2JNILib_init E d fresh width height
        { pending := pending, trace := [] }).1.userData = { fresh with programObject := 0 } ∧
      (Java_com_android_gl2jni_GL2JNILib_init E d fresh width height
        { pending := pending, trace := [] }).2.trace =
        (createProgram d gVertexShader gFragmentShader
          (beforeCreateProgram d width height { pending := pending, trace := [] })).2.trace ++
        [Event.log Severity.error "Could not create program." []] ∧
      viewports (glCalls (Java_com_android_gl2jni_GL2JNILib_init E d fresh width height
        { pending := pending, trace := [] }).2.trace) = [] := by
  have hv := createProgram_viewports d gVertexShader gFragmentShader
    (beforeCreateProgram d width height { pending := pending, trace := [] })
  rw [beforeCreateProgram_viewports] at hv
  have hv0 : viewports (glCalls ([] : List (Event M))) = [] := rfl
  simp only [hv0] at hv
  by_cases hz : (createProgram d gVertexShader gFragmentShader
        (beforeCreateProgram d width height { pending := pending, trace := [] })).1 = 0
  · simp only [Java_com_android_gl2jni_GL2JNILib_init, setupGraphics]
    simp only [beforeCreateProgram] at hz hv ⊢
    simp [hz, viewports_append, hv]
  · simp only [Java_com_android_gl2jni_GL2JNILib_init, setupGraphics]
    simp only [beforeCreateProgram] at hz hv ⊢
    simp [hz, viewports_append, hv]
    simp [viewports]

/-! ## The program builder -/

theorem loadShader_result (d : Driver M) (shaderType : GLenum) (pSource : String)
    (w : World M) :
    (loadShader d shaderType pSource w).1 =
      if d.glCreateShader shaderType ≠ 0 ∧
          d.glGetShaderiv (d.glCreateShader shaderType) GL_COMPILE_STATUS = 0 ∧
          d.glGetShaderiv (d.glCreateShader shaderType) GL_INFO_LOG_LENGTH ≠ 0 then 0
      else d.glCreateShader shaderType := by
  unfold loadShader
  dsimp only
  split_ifs <;> simp_all

theorem loadShader_deleteProgram (d : Driver M) (shaderType : GLenum) (pSource : String)
    (w : World M) (program : GLuint) :
    GLCall.glDeleteProgram program ∈ glCalls (loadShader d shaderType pSource w).2.trace ↔
      GLCall.glDeleteProgram program ∈ glCalls w.trace := by
  unfold loadShader
  dsimp only
  split_ifs <;> simp

/-- C3, evaluated on the code: with a driver that reports a failed compilation
and an info-log length of 0, `loadShader` returns the non-zero shader handle 1
without any glDeleteShader call, and `createProgram` goes on to create a
program, attach the two shaders and link; it returns 0 only because this
driver then reports a failed link. -/
theorem c3_silent_compile_failure :
    silentCompileFailureDriver.glGetShaderiv 1 GL_COMPILE_STATUS = 0 ∧
    silentCompileFailureDriver.glGetShaderiv 1 GL_INFO_LOG_LENGTH = 0 ∧
    (loadShader silentCompileFailureDriver GL_VERTEX_SHADER gVertexShader World.start).1 = 1 ∧
    glCalls (loadShader silentCompileFailureDriver GL_VERTEX_SHADER gVertexShader
      World.start).2.trace =
      [.glCreateShader GL_VERTEX_SHADER, .glShaderSource 1 gVertexShader, .glCompileShader 1,
       .glGetShaderiv 1 GL_COMPILE_STATUS, .glGetShaderiv 1 GL_INFO_LOG_LENGTH] ∧
    glCalls (createProgram silentCompileFailureDriver gVertexShader gFragmentShader
      World.start).2.trace =
      [.glCreateShader GL_VERTEX_SHADER, .glShaderSource 1 gVertexShader, .glCompileShader 1,
       .glGetShaderiv 1 GL_COMPILE_STATUS, .glGetShaderiv 1 GL_INFO_LOG_LENGTH,
       .glCreateShader GL_FRAGMENT_SHADER, .glShaderSource 2 gFragmentShader,
       .glCompileShader 2, .glGetShaderiv 2 GL_COMPILE_STATUS,
       .glGetShaderiv 2 GL_INFO_LOG_LENGTH,
       .glCreateProgram, .glAttachShader 3 1, .glAttachShader 3 2, .glLinkProgram 3,
       .glGetProgramiv 3 GL_LINK_STATUS, .glGetProgramiv 3 GL_INFO_LOG_LENGTH,
       .glDeleteProgram 3] ∧
    (createProgram silentCompileFailureDriver gVertexShader gFragmentShader
      World.start).1 = 0 := by
  refine ⟨rfl, rfl, rfl, rfl, rfl, rfl⟩

/-- C4: when both shader objects are created and compile, `createProgram`
returns 0 after deleting the program object, as its last GPU call, if the link
status is not GL_TRUE, whatever the info-log length and the allocation of the
log buffer; it returns the non-zero handle of glCreateProgram, without deleting
it, if the link status is GL_TRUE; and it returns 0 if glCreateProgram yields
no program object. -/
theorem c4_createProgram_link (d : Driver M) (pVertexSource pFragmentSource : String)
    (pending : List GLenum)
    (hv : d.glCreateShader GL_VERTEX_SHADER ≠ 0)
    (hvc : d.glGetShaderiv (d.glCreateShader GL_VERTEX_SHADER) GL_COMPILE_STATUS ≠ 0)
    (hf : d.glCreateShader GL_FRAGMENT_SHADER ≠ 0)
    (hfc : d.glGetShaderiv (d.glCreateShader GL_FRAGMENT_SHADER) GL_COMPILE_STATUS ≠ 0) :
    (d.glCreateProgram ≠ 0 → d.glGetProgramiv d.glCreateProgram GL_LINK_STATUS ≠ GL_TRUE →
      (createProgram d pVertexSource pFragmentSource { pending := pending, trace := [] }).1 = 0 ∧
      (glCalls (createProgram d pVertexSource pFragmentSource
        { pending := pending, trace := [] }).2.trace).getLast? =
        some (.glDeleteProgram d.glCreateProgram)) ∧
    (d.glCreateProgram ≠ 0 → d.glGetProgramiv d.glCreateProgram GL_LINK_STATUS = GL_TRUE →
      (createProgram d pVertexSource pFragmentSource { pending := pending, trace := [] }).1 =
        d.glCreateProgram ∧
      GLCall.glDeleteProgram d.glCreateProgram ∉
        glCalls (createProgram d pVertexSource pFragmentSource
          { pending := pending, trace := [] }).2.trace) ∧
    (d.glCreateProgram = 0 →
      (createProgram d pVertexSource pFragmentSource { pending := pending, trace := [] }).1 = 0) := by
  have h1 : ∀ w : World M, (loadShader d GL_VERTEX_SHADER pVertexSource w).1 =
      d.glCreateShader GL_VERTEX_SHADER := by
    intro w; rw [loadShader_result]; simp [hvc]
  have h2 : ∀ w : World M, (loadShader d GL_FRAGMENT_SHADER pFragmentSource w).1 =
      d.glCreateShader GL_FRAGMENT_SHADER := by
    intro w; rw [loadShader_result]; simp [hfc]
  refine ⟨?_, ?_, ?_⟩
  · intro hp hl
    unfold createProgram
    simp only [h1, h2, hv, hf, hp, hl, if_false, if_true, ne_eq, not_false_eq_true]
    split_ifs <;> simp
  · intro hp hl
    unfold createProgram
    simp only [h1, h2, hv, hf, hp, hl, if_false, if_true, ne_eq, not_false_eq_true,
      not_true_eq_false]
    simp [loadShader_deleteProgram]
  · intro hp
    unfold createProgram
    simp [h1, h2, hv, hf, hp]

/-- C4 at a driver whose link fails with an empty info log. -/
theorem c4_createProgram_link_witness :
    linkFailureDriver.glCreateShader GL_VERTEX_SHADER ≠ 0 ∧
    linkFailureDriver.glGetShaderiv (linkFailureDriver.glCreateShader GL_VERTEX_SHADER)
      GL_COMPILE_STATUS ≠ 0 ∧
    linkFailureDriver.glCreateShader GL_FRAGMENT_SHADER ≠ 0 ∧
    linkFailureDriver.glGetShaderiv (linkFailureDriver.glCreateShader GL_FRAGMENT_SHADER)
      GL_COMPILE_STATUS ≠ 0 ∧
    (createProgram linkFailureDriver gVertexShader gFragmentShader
      { pending := [], trace := [] }).1 = 0 ∧
    (glCalls (createProgram linkFailureDriver gVertexShader gFragmentShader
      { pending := [], trace := [] }).2.trace).getLast? = some (.glDeleteProgram 3) :=
  have hv : linkFailureDriver.glCreateShader GL_VERTEX_SHADER ≠ 0 := by decide
  have hvc : linkFailureDriver.glGetShaderiv (linkFailureDriver.glCreateShader GL_VERTEX_SHADER)
      GL_COMPILE_STATUS ≠ 0 := by decide
  have hf : linkFailureDriver.glCreateShader GL_FRAGMENT_SHADER ≠ 0 := by decide
  have hfc : linkFailureDriver.glGetShaderiv
      (linkFailureDriver.glCreateShader GL_FRAGMENT_SHADER) GL_COMPILE_STATUS ≠ 0 := by decide
  ⟨hv, hvc, hf, hfc,
    (c4_createProgram_link linkFailureDriver gVertexShader gFragmentShader [] hv hvc hf hfc).1
      (by decide) (by decide)⟩

/-! ## Which calls are followed by an error check -/

theorem checkGlErrorLoop_head (op : String) (flags : List GLenum) (rest : List (Event M)) :
    ((checkGlErrorLoop op flags).2 ++ rest).head? = some (Event.getError op) := by
  cases flags with
  | nil => rfl
  | cons error tail =>
    unfold checkGlErrorLoop
    split_ifs <;> rfl

theorem checkedAfter_gl (name : String) (c : GLCall M) (rest : List (Event M)) :
    checkedAfter name (Event.gl c :: rest) ↔
      (c.name = name → rest.head? = some (Event.getError name)) ∧ checkedAfter name rest :=
  Iff.rfl

theorem transparent_nil (name : String) : Transparent name ([] : List (Event M)) :=
  fun _ => Iff.rfl

theorem transparent_append (name : String) (a b : List (Event M))
    (ha : Transparent name a) (hb : Transparent name b) : Transparent name (a ++ b) := by
  intro rest
  rw [List.append_assoc, ha, hb]

theorem transparent_log (name : String) (sev : Severity) (fmt : String) (args : List LogArg) :
    Transparent name [(Event.log sev fmt args : Event M)] :=
  fun _ => Iff.rfl

theorem transparent_call (name : String) (c : GLCall M) (h : c.name ≠ name) :
    Transparent name [Event.gl c] := by
  intro rest
  simp [checkedAfter, h]

theorem transparent_loop (name op : String) (flags : List GLenum) :
    Transparent name (checkGlErrorLoop (M := M) op flags).2 := by
  intro rest
  induction flags with
  | nil => simp [checkGlErrorLoop, checkedAfter]
  | cons error tail ih =>
    unfold checkGlErrorLoop
    split_ifs
    · simp [checkedAfter]
    · simpa [checkedAfter] using ih

theorem transparent_checked (name op : String) (c : GLCall M) (flags : List GLenum)
    (h : c.name = name → op = name) :
    Transparent name (Event.gl c :: (checkGlErrorLoop op flags).2) := by
  intro rest
  have hl := transparent_loop name op (M := M) flags rest
  rw [List.cons_append, checkedAfter_gl, checkGlErrorLoop_head, hl]
  constructor
  · exact fun hx => hx.2
  · intro hx
    refine ⟨fun hc => ?_, hx⟩
    rw [h hc]

theorem Extends.refl (name : String) (w : World M) : Extends name w w :=
  ⟨[], by simp, transparent_nil name⟩

theorem Extends.call {name : String} {w X : World M} (d : Driver M) (c : GLCall M)
    (hX : Extends name w X) (h : c.name ≠ name) : Extends name w (X.call d c) := by
  obtain ⟨es, he, ht⟩ := hX
  exact ⟨es ++ [Event.gl c], by simp [he],
    transparent_append name _ _ ht (transparent_call name c h)⟩

theorem Extends.checked {name : String} {w X : World M} (d : Driver M) (c : GLCall M)
    (op : String) (hX : Extends name w X) (h : c.name = name → op = name) :
    Extends name w (checkGlError op (X.call d c)) := by
  obtain ⟨es, he, ht⟩ := hX
  exact ⟨es ++ (Event.gl c :: (checkGlErrorLoop op (X.pending ++ d.raises c)).2),
    by simp [he], transparent_append name _ _ ht (transparent_checked name op c _ h)⟩

theorem Extends.logI {name : String} {w X : World M} (fmt : String) (args : List LogArg)
    (hX : Extends name w X) : Extends name w (LOGI fmt args X) := by
  obtain ⟨es, he, ht⟩ := hX
  exact ⟨es ++ [Event.log Severity.info fmt args], by simp [he],
    transparent_append name _ _ ht (transparent_log name _ _ _)⟩

theorem Extends.logE {name : String} {w X : World M} (fmt : String) (args : List LogArg)
    (hX : Extends name w X) : Extends name w (LOGE fmt args X) := by
  obtain ⟨es, he, ht⟩ := hX
  exact ⟨es ++ [Event.log Severity.error fmt args], by simp [he],
    transparent_append name _ _ ht (transparent_log name _ _ _)⟩

theorem Extends.checked_trace {name : String} (pending : List GLenum) {X : World M}
    (hX : Extends name { pending := pending, trace := [] } X) : checkedAfter name X.trace := by
  obtain ⟨es, he, ht⟩ := hX
  have h := ht []
  simp only [List.append_nil] at h
  rw [he]
  simpa using h.2 trivial

theorem Extends.print {name : String} {w X : World M} (d : Driver M) (label : String)
    (s : GLenum) (hX : Extends name w X) (h : "glGetString" ≠ name) :
    Extends name w (printGLString d label s X) := by
  unfold printGLString
  exact (hX.call d (.glGetString s) h).logI _ _

theorem Extends.load {name : String} {w X : World M} (d : Driver M) (shaderType : GLenum)
    (pSource : String) (hX : Extends name w X)
    (hname : name ∈ ["glAttachShader", "glGetAttribLocation", "glViewport"]) :
    Extends name w (loadShader d shaderType pSource X).2 := by
  simp only [List.mem_cons, List.mem_singleton, List.not_mem_nil, or_false] at hname
  unfold loadShader
  dsimp only
  rcases hname with rfl | rfl | rfl <;> split_ifs <;> dsimp only
  all_goals
    repeat (first
      | with_reducible exact hX
      | with_reducible refine Extends.logE _ _ ?_
      | with_reducible refine Extends.call d _ ?_ ?_)
  all_goals simp [GLCall.name]

theorem Extends.create {name : String} {w X : World M} (d : Driver M)
    (pVertexSource pFragmentSource : String) (hX : Extends name w X)
    (hname : name ∈ ["glAttachShader", "glGetAttribLocation", "glViewport"]) :
    Extends name w (createProgram d pVertexSource pFragmentSource X).2 := by
  have hv := hX.load d GL_VERTEX_SHADER pVertexSource hname
  have hp := hv.load d GL_FRAGMENT_SHADER pFragmentSource hname
  simp only [List.mem_cons, List.mem_singleton, List.not_mem_nil, or_false] at hname
  unfold createProgram
  dsimp only
  rcases hname with rfl | rfl | rfl <;> split_ifs <;> dsimp only
  all_goals
    repeat (first
      | with_reducible exact hv
      | with_reducible exact hp
      | with_reducible refine Extends.logE _ _ ?_
      | with_reducible refine Extends.checked d _ _ ?_ ?_
      | with_reducible refine Extends.call d _ ?_ ?_)
  all_goals simp [GLCall.name]

theorem Extends.setup {name : String} {w X : World M} (E : EsUtil M) (d : Driver M)
    (width height : Int) (userData : UserData M) (hX : Extends name w X)
    (hname : name ∈ ["glAttachShader", "glGetAttribLocation", "glViewport"]) :
    Extends name w (setupGraphics E d width height userData X).2.2 := by
  have hg : "glGetString" ≠ name := by
    simp only [List.mem_cons, List.mem_singleton, List.not_mem_nil, or_false] at hname
    rcases hname with rfl | rfl | rfl <;> decide
  have hc := Extends.create d gVertexShader gFragmentShader
    (((((hX.print d "Version" GL_VERSION hg).print d "Vendor" GL_VENDOR hg).print d
      "Renderer" GL_RENDERER hg).print d "Extensions" GL_EXTENSIONS hg).logI
      "setupGraphics(%d, %d)" [.int width, .int height]) hname
  simp only [List.mem_cons, List.mem_singleton, List.not_mem_nil, or_false] at hname
  unfold setupGraphics
  dsimp only
  rcases hname with rfl | rfl | rfl <;> split_ifs <;> dsimp only
  all_goals
    repeat (first
      | with_reducible exact hc
      | with_reducible refine Extends.logE _ _ ?_
      | with_reducible refine Extends.logI _ _ ?_
      | with_reducible refine Extends.checked d _ _ ?_ ?_
      | with_reducible refine Extends.call d _ ?_ ?_)
  all_goals simp [GLCall.name]

theorem Extends.render {name : String} {w X : World M} (d : Driver M) (userData : UserData M)
    (hX : Extends name w X) (hname : name ≠ "glUniformMatrix4fv") :
    Extends name w (renderFrame d userData X) := by
  unfold renderFrame
  dsimp only
  have hn : "glUniformMatrix4fv" ≠ name := fun h => hname h.symm
  repeat (first
    | with_reducible exact hX
    | with_reducible refine Extends.checked d _ _ ?_ ?_
    | with_reducible refine Extends.call d _ ?_ ?_)
  all_goals simp [GLCall.name, hn]

theorem logLines_append (a b : List (Event M)) :
    logLines (a ++ b) = logLines a ++ logLines b := by
  simp [logLines]

theorem checkGlErrorLoop_nonzero (op : String) (flags : List GLenum)
    (h : ∀ e ∈ flags, e ≠ 0) :
    (checkGlErrorLoop (M := M) op flags).1 = [] ∧
      logLines (checkGlErrorLoop (M := M) op flags).2 = flags.map (errorLog op) := by
  induction flags with
  | nil => exact ⟨rfl, rfl⟩
  | cons error rest ih =>
    have h0 : error ≠ 0 := h error (List.mem_cons_self _ _)
    have ih2 := ih (fun e he => h e (List.mem_cons_of_mem _ he))
    unfold checkGlErrorLoop
    rw [if_neg h0]
    refine ⟨ih2.1, ?_⟩
    simp only [List.map_cons]
    rw [← ih2.2]
    rfl

theorem renderFrame_logLines (d : Driver M) (userData : UserData M)
    (hnz : ∀ c, ∀ e ∈ d.raises c, e ≠ 0) :
    logLines (renderFrame d userData { pending := [], trace := [] }).trace =
      (d.raises (.glClearColor grey grey grey 1)).map (errorLog "glClearColor") ++
      (d.raises (.glClear (GL_DEPTH_BUFFER_BIT ||| GL_COLOR_BUFFER_BIT))).map
        (errorLog "glClear") ++
      (d.raises (.glUseProgram userData.programObject)).map (errorLog "glUseProgram") ++
      (d.raises (.glVertexAttribPointer userData.positionLoc 3 GL_FLOAT GL_FALSE (3 * 4)
        userData.vertices)).map (errorLog "glVertexAttribPointer") ++
      (d.raises (.glEnableVertexAttribArray userData.positionLoc)).map
        (errorLog "glEnableVertexAttribArray") ++
      (d.raises (.glUniformMatrix4fv userData.mvpLoc 1 GL_FALSE userData.mvpMatrix) ++
        d.raises (.glDrawElements GL_TRIANGLES userData.numIndices GL_UNSIGNED_INT
          userData.indices)).map (errorLog "glDrawElements") := by
  have key : ∀ (op : String) (c : GLCall M) (w : World M), w.pending = [] →
      (checkGlError op (w.call d c)).pending = [] ∧
      logLines (checkGlError op (w.call d c)).trace =
        logLines w.trace ++ (d.raises c).map (errorLog op) := by
    intro op c w hw
    have h := checkGlErrorLoop_nonzero (M := M) op (d.raises c) (hnz c)
    simp only [checkGlError_pending, checkGlError_trace, call_pending, call_trace, hw,
      List.nil_append, logLines_append, h.1, h.2, true_and]
    simp [logLines]
  unfold renderFrame
  dsimp only
  have k1 := key "glClearColor" (.glClearColor grey grey grey 1) { pending := [], trace := [] } rfl
  have k2 := key "glClear" (.glClear (GL_DEPTH_BUFFER_BIT ||| GL_COLOR_BUFFER_BIT)) _ k1.1
  have k3 := key "glUseProgram" (.glUseProgram userData.programObject) _ k2.1
  have k4 := key "glVertexAttribPointer" (.glVertexAttribPointer userData.positionLoc 3
    GL_FLOAT GL_FALSE (3 * 4) userData.vertices) _ k3.1
  have k5 := key "glEnableVertexAttribArray"
    (.glEnableVertexAttribArray userData.positionLoc) _ k4.1
  have h6 := checkGlErrorLoop_nonzero (M := M) "glDrawElements"
    (d.raises (.glUniformMatrix4fv userData.mvpLoc 1 GL_FALSE userData.mvpMatrix) ++
      d.raises (.glDrawElements GL_TRIANGLES userData.numIndices GL_UNSIGNED_INT
        userData.indices))
    (by
      intro e he
      rcases List.mem_append.1 he with h | h
      · exact hnz _ e h
      · exact hnz _ e h)
  rw [checkGlError_trace, call_pending, call_pending, call_trace, call_trace, k5.1,
    List.nil_append, logLines_append, logLines_append, logLines_append, h6.2, k5.2, k4.2, k3.2,
    k2.2, k1.2]
  simp [logLines]

theorem onlyChecked_append (names : List String) (t es : List (Event M))
    (hes : ∀ op, es.head? ≠ some (Event.getError op)) :
    onlyChecked names (t ++ es) ↔ onlyChecked names t ∧ onlyChecked names es := by
  induction t with
  | nil => simp [onlyChecked]
  | cons e rest ih =>
    cases e with
    | gl c =>
      have hh : ∀ op, (rest ++ es).head? = some (Event.getError op) ↔
          rest.head? = some (Event.getError op) := by
        intro op
        cases rest with
        | nil => simp [hes op]
        | cons r rs => simp
      show ((∀ op, (rest ++ es).head? = some (Event.getError op) → c.name ∈ names) ∧
          onlyChecked names (rest ++ es)) ↔
        ((∀ op, rest.head? = some (Event.getError op) → c.name ∈ names) ∧
          onlyChecked names rest) ∧ onlyChecked names es
      simp only [hh, ih, and_assoc]
    | getError op => exact ih
    | log sev fmt args => exact ih

theorem onlyChecked_loop (names : List String) (op : String) (flags : List GLenum) :
    onlyChecked names (checkGlErrorLoop (M := M) op flags).2 := by
  induction flags with
  | nil => exact trivial
  | cons error rest ih =>
    unfold checkGlErrorLoop
    split_ifs
    · exact trivial
    · exact ih

theorem onlyChecked_call {names : List String} {X : World M} (d : Driver M) (c : GLCall M)
    (hX : onlyChecked names X.trace) : onlyChecked names (X.call d c).trace := by
  rw [call_trace, onlyChecked_append names _ _ (by simp)]
  exact ⟨hX, fun op h => by simp at h, trivial⟩

theorem onlyChecked_checked {names : List String} {X : World M} (d : Driver M) (c : GLCall M)
    (op : String) (hX : onlyChecked names X.trace) (h : c.name ∈ names) :
    onlyChecked names (checkGlError op (X.call d c)).trace := by
  rw [checkGlError_trace, call_trace, List.append_assoc,
    onlyChecked_append names _ _ (by simp)]
  exact ⟨hX, fun _ _ => h, onlyChecked_loop names op _⟩

theorem onlyChecked_logI {names : List String} {X : World M} (fmt : String)
    (args : List LogArg) (hX : onlyChecked names X.trace) :
    onlyChecked names (LOGI fmt args X).trace := by
  rw [LOGI_trace, onlyChecked_append names _ _ (by simp)]
  exact ⟨hX, trivial⟩

theorem onlyChecked_logE {names : List String} {X : World M} (fmt : String)
    (args : List LogArg) (hX : onlyChecked names X.trace) :
    onlyChecked names (LOGE fmt args X).trace := by
  rw [LOGE_trace, onlyChecked_append names _ _ (by simp)]
  exact ⟨hX, trivial⟩

theorem onlyChecked_print {names : List String} {X : World M} (d : Driver M) (label : String)
    (s : GLenum) (hX : onlyChecked names X.trace) :
    onlyChecked names (printGLString d label s X).trace := by
  unfold printGLString
  exact onlyChecked_logI _ _ (onlyChecked_call d _ hX)

theorem onlyChecked_load {names : List String} {X : World M} (d : Driver M)
    (shaderType : GLenum) (pSource : String) (hX : onlyChecked names X.trace) :
    onlyChecked names (loadShader d shaderType pSource X).2.trace := by
  unfold loadShader
  dsimp only
  split_ifs <;> dsimp only
  all_goals
    repeat (first
      | with_reducible exact hX
      | with_reducible refine onlyChecked_logE _ _ ?_
      | with_reducible refine onlyChecked_call d _ ?_)

theorem onlyChecked_create {X : World M} (d : Driver M)
    (pVertexSource pFragmentSource : String)
    (hX : onlyChecked ["glAttachShader", "glGetAttribLocation", "glViewport"] X.trace) :
    onlyChecked ["glAttachShader", "glGetAttribLocation", "glViewport"]
      (createProgram d pVertexSource pFragmentSource X).2.trace := by
  have hv := onlyChecked_load d GL_VERTEX_SHADER pVertexSource hX
  have hp := onlyChecked_load d GL_FRAGMENT_SHADER pFragmentSource hv
  unfold createProgram
  dsimp only
  split_ifs <;> dsimp only
  all_goals
    repeat (first
      | with_reducible exact hv
      | with_reducible exact hp
      | with_reducible refine onlyChecked_logE _ _ ?_
      | with_reducible refine onlyChecked_checked d _ _ ?_ ?_
      | with_reducible refine onlyChecked_call d _ ?_)
  all_goals simp [GLCall.name]

theorem onlyChecked_setup {X : World M} (E : EsUtil M) (d : Driver M)
    (width height : Int) (userData : UserData M)
    (hX : onlyChecked ["glAttachShader", "glGetAttribLocation", "glViewport"] X.trace) :
    onlyChecked ["glAttachShader", "glGetAttribLocation", "glViewport"]
      (setupGraphics E d width height userData X).2.2.trace := by
  have hc := onlyChecked_create d gVertexShader gFragmentShader
    (onlyChecked_logI "setupGraphics(%d, %d)" [.int width, .int height]
      (onlyChecked_print d "Extensions" GL_EXTENSIONS
        (onlyChecked_print d "Renderer" GL_RENDERER
          (onlyChecked_print d "Vendor" GL_VENDOR
            (onlyChecked_print d "Version" GL_VERSION hX)))))
  unfold setupGraphics
  dsimp only
  split_ifs <;> dsimp only
  all_goals
    repeat (first
      | with_reducible exact hc
      | with_reducible refine onlyChecked_logE _ _ ?_
      | with_reducible refine onlyChecked_logI _ _ ?_
      | with_reducible refine onlyChecked_checked d _ _ ?_ ?_
      | with_reducible refine onlyChecked_call d _ ?_)
  all_goals simp [GLCall.name]

theorem onlyChecked_render {X : World M} (d : Driver M) (userData : UserData M)
    (hX : onlyChecked ["glClearColor", "glClear", "glUseProgram", "glVertexAttribPointer",
      "glEnableVertexAttribArray", "glDrawElements"] X.trace) :
    onlyChecked ["glClearColor", "glClear", "glUseProgram", "glVertexAttribPointer",
      "glEnableVertexAttribArray", "glDrawElements"] (renderFrame d userData X).trace := by
  unfold renderFrame
  dsimp only
  repeat (first
    | with_reducible exact hX
    | with_reducible refine onlyChecked_checked d _ _ ?_ ?_
    | with_reducible refine onlyChecked_call d _ ?_)
  all_goals simp [GLCall.name]

theorem uniformError_frame_trace :
    (renderFrame uniformErrorDriver
      (Java_com_android_gl2jni_GL2JNILib_init recordingEsUtil uniformErrorDriver freshUserData
        480 800 World.start).1.userData World.start).trace =
      [Event.gl (.glClearColor 0 0 0 1), Event.getError "glClearColor",
       Event.gl (.glClear 0x4100), Event.getError "glClear",
       Event.gl (.glUseProgram 3), Event.getError "glUseProgram",
       Event.gl (.glVertexAttribPointer 0 3 GL_FLOAT GL_FALSE 12 [0, 0, 0, 1, 0, 0, 0, 1, 0]),
       Event.getError "glVertexAttribPointer",
       Event.gl (.glEnableVertexAttribArray 0), Event.getError "glEnableVertexAttribArray",
       Event.gl (.glUniformMatrix4fv 0 1 GL_FALSE MatTerm.unassigned),
       Event.gl (.glDrawElements GL_TRIANGLES 3 GL_UNSIGNED_INT [0, 1, 2]),
       Event.getError "glDrawElements",
       Event.log Severity.info "after %s() glError (0x%x)\n"
         [.str "glDrawElements", .int 0x0502],
       Event.getError "glDrawElements"] := by
  decide

set_option maxRecDepth 8000 in
theorem uniformError_init_trace :
    (Java_com_android_gl2jni_GL2JNILib_init recordingEsUtil uniformErrorDriver
      freshUserData 480 800 World.start).2.trace =
      [Event.gl (.glGetString GL_VERSION),
       Event.log Severity.info "GL %s = %s\n" [.str "Version", .str "OpenGL ES 2.0"],
       Event.gl (.glGetString GL_VENDOR),
       Event.log Severity.info "GL %s = %s\n" [.str "Vendor", .str "OpenGL ES 2.0"],
       Event.gl (.glGetString GL_RENDERER),
       Event.log Severity.info "GL %s = %s\n" [.str "Renderer", .str "OpenGL ES 2.0"],
       Event.gl (.glGetString GL_EXTENSIONS),
       Event.log Severity.info "GL %s = %s\n" [.str "Extensions", .str "OpenGL ES 2.0"],
       Event.log Severity.info "setupGraphics(%d, %d)" [.int 480, .int 800],
       Event.gl (.glCreateShader GL_VERTEX_SHADER),
       Event.gl (.glShaderSource 1 gVertexShader),
       Event.gl (.glCompileShader 1),
       Event.gl (.glGetShaderiv 1 GL_COMPILE_STATUS),
       Event.gl (.glCreateShader GL_FRAGMENT_SHADER),
       Event.gl (.glShaderSource 2 gFragmentShader),
       Event.gl (.glCompileShader 2),
       Event.gl (.glGetShaderiv 2 GL_COMPILE_STATUS),
       Event.gl .glCreateProgram,
       Event.gl (.glAttachShader 3 1), Event.getError "glAttachShader",
       Event.gl (.glAttachShader 3 2), Event.getError "glAttachShader",
       Event.gl (.glLinkProgram 3),
       Event.gl (.glGetProgramiv 3 GL_LINK_STATUS),
       Event.gl (.glGetAttribLocation 3 "a_position"), Event.getError "glGetAttribLocation",
       Event.log Severity.info "glGetAttribLocation(\"vPosition\") = %d\n" [.int 0],
       Event.gl (.glGetUniformLocation 3 "u_mvpMatrix"),
       Event.gl (.glViewport 0 0 480 800), Event.getError "glViewport"] := by
  decide

/-- C5, as stated, fails. In renderFrame glUniformMatrix4fv is followed at
once by glDrawElements, with no error check in between: when the driver
records GL_INVALID_OPERATION at glUniformMatrix4fv, the one error line of the
frame names glDrawElements. In init, glGetUniformLocation is followed at once
by glViewport. -/
theorem c5_counterexample :
    ¬ checkedAfter "glUniformMatrix4fv"
      (renderFrame uniformErrorDriver
        (Java_com_android_gl2jni_GL2JNILib_init recordingEsUtil uniformErrorDriver freshUserData
          480 800 World.start).1.userData World.start).trace ∧
    uniformErrorDriver.raises (.glUniformMatrix4fv 0 1 GL_FALSE MatTerm.unassigned) = [0x0502] ∧
    uniformErrorDriver.raises (.glDrawElements GL_TRIANGLES 3 GL_UNSIGNED_INT [0, 1, 2]) = [] ∧
    logLines (renderFrame uniformErrorDriver
        (Java_com_android_gl2jni_GL2JNILib_init recordingEsUtil uniformErrorDriver freshUserData
          480 800 World.start).1.userData World.start).trace =
      [errorLog "glDrawElements" 0x0502] ∧
    ¬ checkedAfter "glGetUniformLocation"
      (Java_com_android_gl2jni_GL2JNILib_init recordingEsUtil uniformErrorDriver freshUserData
        480 800 World.start).2.trace := by
  rw [uniformError_frame_trace, uniformError_init_trace]
  refine ⟨?_, rfl, rfl, rfl, ?_⟩
  · simp [checkedAfter, GLCall.name]
  · simp [checkedAfter, GLCall.name]

/-- C5, amended: the GPU calls of renderFrame are glClearColor, glClear,
glUseProgram, glVertexAttribPointer, glEnableVertexAttribArray,
glUniformMatrix4fv and glDrawElements, and each of them except
glUniformMatrix4fv is immediately followed by the error check of
`checkGlError` under its own name; so, when no flag is pending as the frame
begins, the errors of each of these calls are logged under its own name, those
of glUniformMatrix4fv being logged under glDrawElements. In init (through
setupGraphics and createProgram) the calls glAttachShader, glGetAttribLocation
and glViewport are immediately followed by the error check under their own
name. No other GPU call is immediately followed by an error check: not
glUniformMatrix4fv in renderFrame, and in init none of the calls named
otherwise than glAttachShader, glGetAttribLocation and glViewport. -/
theorem c5_checked_calls (E : EsUtil M) (d : Driver M) (fresh userData : UserData M)
    (width height : Int) (pending : List GLenum) :
    (glCalls (renderFrame d userData { pending := pending, trace := [] }).trace).map GLCall.name =
      ["glClearColor", "glClear", "glUseProgram", "glVertexAttribPointer",
       "glEnableVertexAttribArray", "glUniformMatrix4fv", "glDrawElements"] ∧
    (∀ name ∈ ["glClearColor", "glClear", "glUseProgram", "glVertexAttribPointer",
        "glEnableVertexAttribArray", "glDrawElements"],
      checkedAfter name (renderFrame d userData { pending := pending, trace := [] }).trace) ∧
    ((∀ c, ∀ e ∈ d.raises c, e ≠ 0) →
      logLines (renderFrame d userData { pending := [], trace := [] }).trace =
        (d.raises (.glClearColor grey grey grey 1)).map (errorLog "glClearColor") ++
        (d.raises (.glClear (GL_DEPTH_BUFFER_BIT ||| GL_COLOR_BUFFER_BIT))).map
          (errorLog "glClear") ++
        (d.raises (.glUseProgram userData.programObject)).map (errorLog "glUseProgram") ++
        (d.raises (.glVertexAttribPointer userData.positionLoc 3 GL_FLOAT GL_FALSE (3 * 4)
          userData.vertices)).map (errorLog "glVertexAttribPointer") ++
        (d.raises (.glEnableVertexAttribArray userData.positionLoc)).map
          (errorLog "glEnableVertexAttribArray") ++
        (d.raises (.glUniformMatrix4fv userData.mvpLoc 1 GL_FALSE userData.mvpMatrix) ++
          d.raises (.glDrawElements GL_TRIANGLES userData.numIndices GL_UNSIGNED_INT
            userData.indices)).map (errorLog "glDrawElements")) ∧
    (∀ name ∈ ["glAttachShader", "glGetAttribLocation", "glViewport"],
      checkedAfter name (Java_com_android_gl2jni_GL2JNILib_init E d fresh width height
        { pending := pending, trace := [] }).2.trace) ∧
    onlyChecked ["glClearColor", "glClear", "glUseProgram", "glVertexAttribPointer",
        "glEnableVertexAttribArray", "glDrawElements"]
      (renderFrame d userData { pending := pending, trace := [] }).trace ∧
    onlyChecked ["glAttachShader", "glGetAttribLocation", "glViewport"]
      (Java_com_android_gl2jni_GL2JNILib_init E d fresh width height
        { pending := pending, trace := [] }).2.trace := by
  refine ⟨?_, ?_, renderFrame_logLines d userData, ?_,
    onlyChecked_render d userData trivial,
    onlyChecked_setup E d width height fresh trivial⟩
  · simp [renderFrame, GLCall.name]
  · intro name hname
    refine Extends.checked_trace pending
      (Extends.render d userData (Extends.refl name _) ?_)
    simp only [List.mem_cons, List.mem_singleton, List.not_mem_nil, or_false] at hname
    rcases hname with rfl | rfl | rfl | rfl | rfl | rfl <;> decide
  · intro name hname
    exact Extends.checked_trace pending
      (Extends.setup E d width height fresh (Extends.refl name _) hname)

/-- C5, amended, at a driver that records an error at glUniformMatrix4fv. -/
theorem c5_checked_calls_witness :
    "glDrawElements" ∈ ["glClearColor", "glClear", "glUseProgram", "glVertexAttribPointer",
      "glEnableVertexAttribArray", "glDrawElements"] ∧
    checkedAfter "glDrawElements"
      (renderFrame uniformErrorDriver freshUserData { pending := [], trace := [] }).trace ∧
    "glViewport" ∈ ["glAttachShader", "glGetAttribLocation", "glViewport"] ∧
    checkedAfter "glViewport"
      (Java_com_android_gl2jni_GL2JNILib_init recordingEsUtil uniformErrorDriver freshUserData
        480 800 { pending := [], trace := [] }).2.trace :=
  have h1 : "glDrawElements" ∈ ["glClearColor", "glClear", "glUseProgram",
      "glVertexAttribPointer", "glEnableVertexAttribArray", "glDrawElements"] := by decide
  have h2 : "glViewport" ∈ ["glAttachShader", "glGetAttribLocation", "glViewport"] := by decide
  ⟨h1,
    (c5_checked_calls recordingEsUtil uniformErrorDriver freshUserData freshUserData 480 800
      []).2.1 "glDrawElements" h1,
    h2,
    (c5_checked_calls recordingEsUtil uniformErrorDriver freshUserData freshUserData 480 800
      []).2.2.2.1 "glViewport" h2⟩

/-! ## The order of Render and Update in a step -/

theorem uploads_append (a b : List (GLCall M)) : uploads (a ++ b) = uploads a ++ uploads b := by
  simp [uploads]

theorem renderFrame_glCalls (d : Driver M) (userData : UserData M) (w : World M) :
    glCalls (renderFrame d userData w).trace = glCalls w.trace ++
      [.glClearColor grey grey grey 1,
       .glClear (GL_DEPTH_BUFFER_BIT ||| GL_COLOR_BUFFER_BIT),
       .glUseProgram userData.programObject,
       .glVertexAttribPointer userData.positionLoc 3 GL_FLOAT GL_FALSE (3 * 4) userData.vertices,
       .glEnableVertexAttribArray userData.positionLoc,
       .glUniformMatrix4fv userData.mvpLoc 1 GL_FALSE userData.mvpMatrix,
       .glDrawElements GL_TRIANGLES userData.numIndices GL_UNSIGNED_INT userData.indices] := by
  simp [renderFrame]

theorem step_uploads (E : EsUtil M) (d : Driver M) (s : Globals M × World M) :
    uploads (glCalls (Java_com_android_gl2jni_GL2JNILib_step E d s).2.trace) =
      uploads (glCalls s.2.trace) ++ [s.1.userData.mvpMatrix] := by
  show uploads (glCalls (renderFrame d s.1.userData s.2).trace) = _
  rw [renderFrame_glCalls, uploads_append]
  rfl

/-- C2, as stated, fails: after init(480, 800) the first step uploads the
matrix of the freshly allocated record, which no Update has computed, although
its updated angle is 45.04; the second step uploads the matrix computed from
45.04 although its own updated angle is 45.08. -/
theorem c2_counterexample :
    uploads (glCalls (steps recordingEsUtil okDriver 1
      (Java_com_android_gl2jni_GL2JNILib_init recordingEsUtil okDriver freshUserData 480 800
        World.start)).2.trace) = [MatTerm.unassigned] ∧
    (steps recordingEsUtil okDriver 1
      (Java_com_android_gl2jni_GL2JNILib_init recordingEsUtil okDriver freshUserData 480 800
        World.start)).1.userData.angle = 1126 / 25 ∧
    MatTerm.unassigned ≠ mvpSpec recordingEsUtil 100 (1126 / 25) (480 / 800) ∧
    uploads (glCalls (steps recordingEsUtil okDriver 2
      (Java_com_android_gl2jni_GL2JNILib_init recordingEsUtil okDriver freshUserData 480 800
        World.start)).2.trace) =
      [MatTerm.unassigned, mvpSpec recordingEsUtil 100 (1126 / 25) (480 / 800)] ∧
    (steps recordingEsUtil okDriver 2
      (Java_com_android_gl2jni_GL2JNILib_init recordingEsUtil okDriver freshUserData 480 800
        World.start)).1.userData.angle = 1127 / 25 ∧
    mvpSpec recordingEsUtil 100 (1126 / 25) (480 / 800) ≠
      mvpSpec recordingEsUtil 100 (1127 / 25) (480 / 800) := by
  have a0 : (Java_com_android_gl2jni_GL2JNILib_init recordingEsUtil okDriver freshUserData 480
      800 World.start).1.userData.angle = 45 := by decide
  have m0 : (Java_com_android_gl2jni_GL2JNILib_init recordingEsUtil okDriver freshUserData 480
      800 World.start).1.userData.mvpMatrix = MatTerm.unassigned := by decide
  have u0 : uploads (glCalls (Java_com_android_gl2jni_GL2JNILib_init recordingEsUtil okDriver
      freshUserData 480 800 World.start).2.trace) = [] := by decide
  have a1 : (steps recordingEsUtil okDriver 1
      (Java_com_android_gl2jni_GL2JNILib_init recordingEsUtil okDriver freshUserData 480 800
        World.start)).1.userData.angle = 1126 / 25 := by
    show (Update recordingEsUtil (1 / 1000) 480 800 _).angle = _
    rw [Update_angle, a0]
    norm_num
  have m1 : (steps recordingEsUtil okDriver 1
      (Java_com_android_gl2jni_GL2JNILib_init recordingEsUtil okDriver freshUserData 480 800
        World.start)).1.userData.mvpMatrix =
      mvpSpec recordingEsUtil 100 (1126 / 25) (480 / 800) := by
    have hm : (steps recordingEsUtil okDriver 1
        (Java_com_android_gl2jni_GL2JNILib_init recordingEsUtil okDriver freshUserData 480 800
          World.start)).1.userData.mvpMatrix =
        mvpSpec recordingEsUtil 100 (steps recordingEsUtil okDriver 1
          (Java_com_android_gl2jni_GL2JNILib_init recordingEsUtil okDriver freshUserData 480 800
            World.start)).1.userData.angle
          (((480 : Int) : GLfloat) / ((800 : Int) : GLfloat)) := rfl
    rw [hm, a1]
    norm_num
  have a2 : (steps recordingEsUtil okDriver 2
      (Java_com_android_gl2jni_GL2JNILib_init recordingEsUtil okDriver freshUserData 480 800
        World.start)).1.userData.angle = 1127 / 25 := by
    show (Update recordingEsUtil (1 / 1000) 480 800 (steps recordingEsUtil okDriver 1
      (Java_com_android_gl2jni_GL2JNILib_init recordingEsUtil okDriver freshUserData 480 800
        World.start)).1.userData).angle = _
    rw [Update_angle, a1]
    norm_num
  have u1 : uploads (glCalls (steps recordingEsUtil okDriver 1
      (Java_com_android_gl2jni_GL2JNILib_init recordingEsUtil okDriver freshUserData 480 800
        World.start)).2.trace) = [MatTerm.unassigned] := by
    rw [steps_succ, step_uploads]
    show uploads (glCalls (Java_com_android_gl2jni_GL2JNILib_init recordingEsUtil okDriver
      freshUserData 480 800 World.start).2.trace) ++
      [(Java_com_android_gl2jni_GL2JNILib_init recordingEsUtil okDriver
        freshUserData 480 800 World.start).1.userData.mvpMatrix] = _
    rw [u0, m0]
    rfl
  have u2 : uploads (glCalls (steps recordingEsUtil okDriver 2
      (Java_com_android_gl2jni_GL2JNILib_init recordingEsUtil okDriver freshUserData 480 800
        World.start)).2.trace) =
      [MatTerm.unassigned, mvpSpec recordingEsUtil 100 (1126 / 25) (480 / 800)] := by
    rw [steps_succ, step_uploads, u1, m1]
    rfl
  refine ⟨u1, a1, ?_, u2, a2, ?_⟩
  · simp [mvpSpec, recordingEsUtil]
  · simp only [mvpSpec, recordingEsUtil, ne_eq, MatTerm.multiply.injEq, MatTerm.rotate.injEq,
      true_and, and_true]
    norm_num

/-- C2, amended: in every step the Render comes before the Update. The matrix
stored when a step ends is the one computed from that step's updated angle
(with the stored width and height), and it is the next step that uploads it:
every step after the first uploads exactly one matrix, the one the previous
step computed from the previous step's updated angle. -/
theorem c2_render_then_update (E : EsUtil M) (d : Driver M) (s : Globals M × World M)
    (n : Nat) :
    (steps E d (n + 1) s).1.userData.angle =
      (if (steps E d n s).1.userData.angle + 1 / 1000 * 40 ≥ 360
        then (steps E d n s).1.userData.angle + 1 / 1000 * 40 - 360
        else (steps E d n s).1.userData.angle + 1 / 1000 * 40) ∧
    (steps E d (n + 1) s).1.userData.mvpMatrix =
      mvpSpec E 100 (steps E d (n + 1) s).1.userData.angle
        ((s.1.ww : GLfloat) / (s.1.hh : GLfloat)) ∧
    uploads (glCalls (steps E d (n + 2) s).2.trace) =
      uploads (glCalls (steps E d (n + 1) s).2.trace) ++
        [mvpSpec E 100 (steps E d (n + 1) s).1.userData.angle
          ((s.1.ww : GLfloat) / (s.1.hh : GLfloat))] := by
  have hf := steps_sameFrame E d n s
  have hmvp : (steps E d (n + 1) s).1.userData.mvpMatrix =
      mvpSpec E 100 (steps E d (n + 1) s).1.userData.angle
        ((s.1.ww : GLfloat) / (s.1.hh : GLfloat)) := by
    rw [steps_succ]
    show mvpSpec E 100 _ (_ / _) = mvpSpec E 100 _ _
    rw [hf.2.2.2.2.2.2.1, hf.2.2.2.2.2.2.2]
    rfl
  refine ⟨?_, hmvp, ?_⟩
  · rw [steps_succ]
    rfl
  · rw [steps_succ E d (n + 1), step_uploads, hmvp]

/-! ## Both outcomes of init occur -/

theorem init_success_example :
    (Java_com_android_gl2jni_GL2JNILib_init recordingEsUtil okDriver freshUserData 480 800
      World.start).1.userData =
      { programObject := 3, positionLoc := 0, mvpLoc := 0,
        vertices := [0, 0, 0, 1, 0, 0, 0, 1, 0], indices := [0, 1, 2], numIndices := 3,
        angle := 45, mvpMatrix := MatTerm.unassigned } := by
  rfl

theorem init_failure_example :
    (Java_com_android_gl2jni_GL2JNILib_init recordingEsUtil linkFailureDriver freshUserData 480
      800 World.start).1.userData = { freshUserData with programObject := 0 } ∧
    (Java_com_android_gl2jni_GL2JNILib_init recordingEsUtil linkFailureDriver freshUserData 480
      800 World.start).2.trace.getLast? =
      some (Event.log Severity.error "Could not create program." []) := by
  exact ⟨rfl, by decide⟩

end GL2JNI
